import Mathlib

/-!
Verification of the web layer of the Groups-warehouses repository
(`src/Our_Agent/Web/web_server.py`), a FastAPI server bridging a browser chat
UI to an MCP client (`DeepSeekMCPClient`).  The server code is shallowly
embedded below: each endpoint handler becomes a Lean function over an explicit
server state; the underlying MCP client (whose module `client.py` is not part
of the sources, only imported) is treated as an external collaborator whose
per-call behaviour is an explicit parameter.
-/

/-- Outcome of one `await mcp_client.process_query(message)` call:
the coroutine either returns a reply string normally or raises an
exception whose `str(e)` is the given message. -/
inductive QueryOutcome where
  | returns (r : String)
  | raises (msg : String)
deriving DecidableEq, Repr

/-- Behaviour of the external `DeepSeekMCPClient.process_query` coroutine,
as a function of the submitted message.  `client.py` is outside the sources,
so the behaviour is kept abstract. -/
structure ClientBehavior where
  process_query : String → QueryOutcome

/-- The pydantic response model `ChatResponse` of `web_server.py`
(lines 35-38): `reply: str`, `success: bool`, `error: Optional[str] = None`. -/
structure ChatResponse where
  reply : String
  success : Bool
  error : Option String := none
deriving DecidableEq, Repr

/-- The stored MCP client object, as seen by the web layer.  The only
attribute the web server reads is `mcp_client.session` (line 144), whose
Python truthiness we record as a boolean: `true` when the channel to the
tool server is present/open. -/
structure MCPClient where
  session : Bool
deriving DecidableEq, Repr

/-- The module-level state of `web_server.py`: the global
`mcp_client: Optional[DeepSeekMCPClient] = None` (line 53). -/
structure ServerState where
  mcp_client : Option MCPClient
deriving DecidableEq, Repr

/-- Result of running an HTTP handler: a normal return value, or an
exception propagating out of the handler to the framework. -/
inductive HandlerResult (α : Type) where
  | ok (v : α)
  | exn (msg : String)
deriving DecidableEq, Repr

/-- `chat_endpoint` (`web_server.py` lines 97-130).  If the global client is
`None` it returns a structured failure response; otherwise it awaits
`process_query` inside a `try` block: a normal return is forwarded as
`ChatResponse(reply=response, success=True)` (with `error` defaulting to
`None`), and any raised `Exception` is caught and converted to a structured
failure response carrying the exception text. -/
def chat_endpoint (st : ServerState) (client : ClientBehavior) (message : String) :
    HandlerResult ChatResponse :=
  match st.mcp_client with
  | none =>
      .ok { reply := "❌ 服务器未正确初始化，请稍后再试"
            success := false
            error := some "MCP客户端未初始化" }
  | some _ =>
      match client.process_query message with
      | .returns r => .ok { reply := r, success := true, error := none }
      | .raises e =>
          .ok { reply := "❌ 抱歉，处理您的请求时出现了错误，请稍后再试"
                success := false
                error := some ("处理请求时出错: " ++ e) }

/-- Outcome of `await mcp_client.connect_to_server(path)` during startup. -/
inductive ConnectOutcome where
  | ok
  | raises (msg : String)
deriving DecidableEq, Repr

/-- `startup_event` (`web_server.py` lines 55-75).  Inside a `try`: the client
object is constructed; if the weather-server path exists, `connect_to_server`
is awaited (on success the client holds an open session); otherwise a
`FileNotFoundError` is raised.  Any exception is caught and the global
client is reset to `None`, so the handler itself never raises. -/
def startup_event (weatherServerExists : Bool) (connect : ConnectOutcome) : ServerState :=
  if weatherServerExists then
    match connect with
    | .ok => { mcp_client := some { session := true } }
    | .raises _ => { mcp_client := none }
  else
    { mcp_client := none }

/-- Response of the `/api/health` endpoint: `status`, `mcp_client_ready`
and `message` fields. -/
structure HealthResponse where
  status : String
  mcp_client_ready : Bool
  message : String
deriving DecidableEq, Repr

/-- `health_check` (`web_server.py` lines 132-139): reports
`mcp_client_ready = (mcp_client is not None)` together with fixed strings. -/
def health_check (st : ServerState) : HealthResponse :=
  { status := "healthy"
    mcp_client_ready := st.mcp_client.isSome
    message := "WeaTrip MCP Web Server is running" }

/-- Response of the `/api/status` endpoint: `status` and `message` fields. -/
structure StatusResponse where
  status : String
  message : String
deriving DecidableEq, Repr

/-- `status_check` (`web_server.py` lines 141-153): returns the ready payload
exactly when `mcp_client and mcp_client.session` is truthy, i.e. the client
object exists and its session attribute is truthy. -/
def status_check (st : ServerState) : StatusResponse :=
  match st.mcp_client with
  | some c =>
      if c.session then
        { status := "ready", message := "MCP客户端已连接并准备就绪" }
      else
        { status := "not_ready", message := "MCP客户端未连接" }
  | none => { status := "not_ready", message := "MCP客户端未连接" }

/-- Outcome of one `await mcp_client.cleanup()` call at shutdown. -/
inductive CleanupOutcome where
  | ok
  | raises (msg : String)
deriving DecidableEq, Repr

/-- `shutdown_event` (`web_server.py` lines 77-86).  When the client is
`None` nothing happens; otherwise `cleanup()` is awaited inside a
`try`/`except` that swallows any exception.  The returned boolean records
whether `cleanup` was invoked. -/
def shutdown_event (st : ServerState) (cleanup : CleanupOutcome) : HandlerResult Bool :=
  match st.mcp_client with
  | none => .ok false
  | some _ =>
      match cleanup with
      | .ok => .ok true
      | .raises _ => .ok true

/-- The `required_env_vars` list of the `__main__` block
(`web_server.py` line 157). -/
def required_env_vars : List String := ["API_KEY", "BASE_URL", "MODEL"]

/-- Python truthiness of an `os.getenv` result: `None` and the empty
string are falsy. -/
def envTruthy : Option String → Bool
  | none => false
  | some s => !s.isEmpty

/-- `missing_vars` (`web_server.py` line 158): the required variables whose
`os.getenv` value is falsy. -/
def missing_vars (env : String → Option String) : List String :=
  required_env_vars.filter (fun v => !envTruthy (env v))

/-- What the `__main__` block does after the environment check. -/
inductive MainAction where
  | exitWith (code : Nat)
  | launchServer
deriving DecidableEq, Repr

/-- The `__main__` block (`web_server.py` lines 155-178): if `missing_vars`
is non-empty the process calls `sys.exit(1)`; only otherwise is
`uvicorn.run(...)` reached. -/
def main_entry (env : String → Option String) : MainAction :=
  if (missing_vars env).isEmpty then .launchServer else .exitWith 1

/-- Result of the `GET /` handler: either a `FileResponse` for a path, or a
raised `HTTPException` with a status code and detail string. -/
inductive IndexResult where
  | fileResponse (path : String)
  | httpException (status : Nat) (detail : String)
deriving DecidableEq, Repr

/-- `serve_index` (`web_server.py` lines 88-95): returns
`FileResponse(project_root / "web" / "index.html")` when that file exists and
otherwise raises `HTTPException(status_code=404, detail="HTML文件不存在")`. -/
def serve_index (indexExists : Bool) : IndexResult :=
  if indexExists then .fileResponse "web/index.html"
  else .httpException 404 "HTML文件不存在"

/-!
Interleaving model for concurrent chat requests.  `chat_endpoint` awaits
`mcp_client.process_query(request.message)` on the single shared global client
with no lock, queue, or per-session admission of any kind, so the event loop
may run two in-flight requests concurrently, interleaving them at their
suspension points.  The session side of `process_query` lives in `client.py`,
which is not among the sources, and is modelled from the spec.
-/

/-- Modelled from the spec: `process_query` is missing from the sources
(`client.py` is only imported).  Per the spec, it appends the user message to
the shared Conversation Session, calls the model with the session history as
context (a suspension point), and appends the resulting assistant turn.  One
in-flight chat request is thus two atomic phases around the suspension:
read the history as the model context, then append this query's turns. -/
structure QueryTask where
  userText : String
  ctx : Option (List String)
  finished : Bool
deriving DecidableEq, Repr

/-- The turns one query appends to the session history. -/
def turnsOf (t : QueryTask) : List String :=
  ["user:" ++ t.userText, "assistant:reply-to-" ++ t.userText]

/-- One atomic phase of an in-flight request: before the suspension point it
reads the shared history as its model context; after it, it appends its
turns and finishes. -/
def stepTask (h : List String) (t : QueryTask) : List String × QueryTask :=
  match t.ctx with
  | none => (h, { t with ctx := some h })
  | some _ => if t.finished then (h, t) else (h ++ turnsOf t, { t with finished := true })

/-- Two concurrent chat requests sharing the global client's session. -/
structure ConcState where
  history : List String
  t0 : QueryTask
  t1 : QueryTask
deriving DecidableEq, Repr

/-- Run a schedule: each entry picks which of the two requests performs its
next atomic phase.  Because `chat_endpoint` takes no lock, every schedule is
permitted by the code. -/
def runSchedule : List Bool → ConcState → ConcState
  | [], s => s
  | b :: rest, s =>
      if b then
        let p := stepTask s.history s.t1
        runSchedule rest { s with history := p.1, t1 := p.2 }
      else
        let p := stepTask s.history s.t0
        runSchedule rest { s with history := p.1, t0 := p.2 }

/-- Initial state: an empty session and two pending requests `q0`, `q1`. -/
def initConc : ConcState :=
  { history := []
    t0 := { userText := "q0", ctx := none, finished := false }
    t1 := { userText := "q1", ctx := none, finished := false } }

/-- The interleaved schedule: both requests read the history before either
appends its turns. -/
def interleavedSchedule : List Bool := [false, true, false, true]

/-- A ready state as produced by a successful startup. -/
def readyState : ServerState := { mcp_client := some { session := true } }

/-- A client behaviour whose `process_query` returns normally on every input. -/
def echoClient : ClientBehavior :=
  { process_query := fun m => .returns ("echo:" ++ m) }

/-- Whether the Connection is still open: the client exists and its session
channel is present.  (Formalises the spec's "Connection is still open".) -/
def connectionOpen (st : ServerState) : Bool :=
  match st.mcp_client with
  | some c => c.session
  | none => false

/-- A state where `start` completed (a client object is stored) but the
session channel has since closed. -/
def staleState : ServerState := { mcp_client := some { session := false } }

/-- C1: for every server state and every behaviour of the underlying client
(absent, returning normally, or raising), `chat_endpoint` returns a
`ChatResponse` normally — it never propagates an exception — and whenever
`success` is `false` the `error` field carries a message. -/
theorem chat_endpoint_never_raises (st : ServerState) (client : ClientBehavior)
    (message : String) :
    ∃ resp : ChatResponse,
      chat_endpoint st client message = .ok resp ∧
      (resp.success = false → ∃ e, resp.error = some e) := by
  unfold chat_endpoint
  cases st.mcp_client with
  | none => exact ⟨_, rfl, fun _ => ⟨_, rfl⟩⟩
  | some c =>
    cases client.process_query message with
    | returns r => exact ⟨_, rfl, fun h => Bool.noConfusion h⟩
    | raises e => exact ⟨_, rfl, fun _ => ⟨_, rfl⟩⟩

/-- C2: when startup fails because the tool-server path does not exist, the
client handle is left unset, every subsequent chat request returns a
structured failure response without throwing, and the degraded state is
visible through the health endpoint. -/
theorem startup_failure_degrades_gracefully (connect : ConnectOutcome)
    (client : ClientBehavior) (m : String) :
    (startup_event false connect).mcp_client = none ∧
    chat_endpoint (startup_event false connect) client m =
      .ok { reply := "❌ 服务器未正确初始化，请稍后再试"
            success := false
            error := some "MCP客户端未初始化" } ∧
    (health_check (startup_event false connect)).mcp_client_ready = false :=
  ⟨rfl, rfl, rfl⟩

/-- C3: when the client is initialised and `process_query` returns text `r`
for the submitted message, the chat endpoint returns exactly
`{reply := r, success := true, error := none}`. -/
theorem chat_endpoint_forwards_reply (st : ServerState) (c : MCPClient)
    (client : ClientBehavior) (m r : String)
    (hc : st.mcp_client = some c) (hr : client.process_query m = .returns r) :
    chat_endpoint st client m = .ok { reply := r, success := true, error := none } := by
  unfold chat_endpoint
  rw [hc, hr]

/-- Witness for C3 at a concrete state, client behaviour and message. -/
theorem chat_endpoint_forwards_reply_witness :
    chat_endpoint readyState echoClient "Beijing weather today" =
      .ok { reply := "echo:Beijing weather today", success := true, error := none } :=
  chat_endpoint_forwards_reply readyState { session := true } echoClient
    "Beijing weather today" "echo:Beijing weather today" rfl rfl

/-- C4 counterexample: in the state where a client object exists but its
session has closed, `health_check` still reports readiness `true`, although
"start completed AND the Connection is still open" is `false` — the endpoint
checks only that a client object exists. -/
theorem health_check_ignores_connection :
    ¬ ((health_check staleState).mcp_client_ready =
        (staleState.mcp_client.isSome && connectionOpen staleState)) := by
  decide

/-- C4 amended: the health endpoint's readiness field is `true` if and only
if a client object is stored (startup completed successfully); it does not
consult the session, so a closed Connection is not reflected. -/
theorem health_check_ready_iff_client_set (st : ServerState) :
    (health_check st).mcp_client_ready = true ↔ ∃ c, st.mcp_client = some c := by
  simp [health_check, Option.isSome_iff_exists]

/-- C5: the status endpoint reports `"ready"` exactly when the client exists
and its session (the open channel to the tool server) is present, and
`"not_ready"` in every other state. -/
theorem status_check_ready_iff (st : ServerState) :
    ((status_check st).status = "ready" ↔
      ∃ c, st.mcp_client = some c ∧ c.session = true) ∧
    ((¬ ∃ c, st.mcp_client = some c ∧ c.session = true) →
      (status_check st).status = "not_ready") := by
  cases h : st.mcp_client with
  | none => simp [status_check, h]
  | some c => cases hs : c.session <;> simp [status_check, h, hs]

/-- C6: the shutdown hook is safe in every state: it always returns normally
(a raising `cleanup` is contained), and when no client was created it is a
no-op — `cleanup` is never invoked. -/
theorem shutdown_event_never_raises (st : ServerState) (cleanup : CleanupOutcome) :
    ∃ invoked : Bool,
      shutdown_event st cleanup = .ok invoked ∧
      (st.mcp_client = none → invoked = false) := by
  cases h : st.mcp_client with
  | none => exact ⟨false, by simp [shutdown_event, h], fun _ => rfl⟩
  | some c =>
    cases cleanup with
    | ok =>
        exact ⟨true, by simp [shutdown_event, h], fun hn => Option.noConfusion hn⟩
    | raises e =>
        exact ⟨true, by simp [shutdown_event, h], fun hn => Option.noConfusion hn⟩

/-- C7: `chat_endpoint` performs no per-session serialization, so the
interleaved schedule — both requests read the shared history before either
appends — is permitted.  Running it, both requests finish, the first
request's turns are appended to the session before the second's, yet the
second request's model context is the stale empty history, not one
containing the first request's appended turns. -/
theorem concurrent_chat_not_serialized :
    (runSchedule interleavedSchedule initConc).t0.finished = true ∧
    (runSchedule interleavedSchedule initConc).t1.finished = true ∧
    (runSchedule interleavedSchedule initConc).history =
      ["user:q0", "assistant:reply-to-q0", "user:q1", "assistant:reply-to-q1"] ∧
    (runSchedule interleavedSchedule initConc).t1.ctx = some [] := by
  decide

/-- C8: on every return path of `chat_endpoint` the response satisfies:
`error` is `none` if and only if `success` is `true`. -/
theorem chat_endpoint_error_iff_failure (st : ServerState) (client : ClientBehavior)
    (message : String) :
    ∃ resp : ChatResponse,
      chat_endpoint st client message = .ok resp ∧
      (resp.error = none ↔ resp.success = true) := by
  unfold chat_endpoint
  cases st.mcp_client with
  | none => exact ⟨_, rfl, by simp⟩
  | some c =>
    cases client.process_query message with
    | returns r => exact ⟨_, rfl, by simp⟩
    | raises e => exact ⟨_, rfl, by simp⟩

/-- A required variable with a falsy `os.getenv` value is in `missing_vars`. -/
theorem mem_missing_vars_of_none (env : String → Option String) (v : String)
    (hv : v ∈ required_env_vars) (he : env v = none) : v ∈ missing_vars env := by
  simp [missing_vars, List.mem_filter, hv, envTruthy, he]

/-- A non-empty `missing_vars` makes the `__main__` block exit with code 1. -/
theorem main_entry_exit_of_missing (env : String → Option String) (v : String)
    (hmem : v ∈ missing_vars env) : main_entry env = .exitWith 1 := by
  unfold main_entry
  have hne : (missing_vars env).isEmpty = false := by
    cases h : missing_vars env with
    | nil => rw [h] at hmem; exact absurd hmem (List.not_mem_nil v)
    | cons a l => rfl
  simp [hne]

/-- C9: if any of `API_KEY`, `BASE_URL`, `MODEL` is missing from the
environment, the `__main__` block exits with status 1 before the HTTP server
is launched; and the server is launched only when all three are present. -/
theorem env_check_guards_launch (env : String → Option String) :
    ((∃ v, v ∈ required_env_vars ∧ env v = none) → main_entry env = .exitWith 1) ∧
    (main_entry env = .launchServer →
      ∀ v, v ∈ required_env_vars → ∃ s, env v = some s) := by
  constructor
  · rintro ⟨v, hv, he⟩
    exact main_entry_exit_of_missing env v (mem_missing_vars_of_none env v hv he)
  · intro hlaunch v hv
    cases he : env v with
    | some s => exact ⟨s, rfl⟩
    | none =>
      have hexit := main_entry_exit_of_missing env v (mem_missing_vars_of_none env v hv he)
      rw [hlaunch] at hexit
      exact MainAction.noConfusion hexit

/-- Witness for C9 at the concrete empty environment. -/
theorem env_check_guards_launch_witness :
    main_entry (fun _ => none) = .exitWith 1 :=
  (env_check_guards_launch (fun _ => none)).1 ⟨"API_KEY", by decide, rfl⟩

/-- C10: `GET /` returns the file `web/index.html` when it exists, and
otherwise raises an `HTTPException` with status 404 — an exception, not a
structured failure body. -/
theorem serve_index_file_or_404 :
    serve_index true = .fileResponse "web/index.html" ∧
    serve_index false = .httpException 404 "HTML文件不存在" :=
  ⟨rfl, rfl⟩

/-- Witness for C1 at a concrete state, behaviour and message. -/
theorem chat_endpoint_never_raises_witness :
    ∃ resp : ChatResponse,
      chat_endpoint { mcp_client := none } echoClient "hi" = .ok resp ∧
      (resp.success = false → ∃ e, resp.error = some e) :=
  chat_endpoint_never_raises { mcp_client := none } echoClient "hi"

/-- Witness for the amended C4 at a concrete ready state. -/
theorem health_check_ready_iff_client_set_witness :
    (health_check readyState).mcp_client_ready = true :=
  (health_check_ready_iff_client_set readyState).mpr ⟨{ session := true }, rfl⟩

/-- Witness for C5 at a concrete connected state. -/
theorem status_check_ready_iff_witness :
    (status_check readyState).status = "ready" :=
  (status_check_ready_iff readyState).1.mpr ⟨{ session := true }, rfl, rfl⟩

/-- Witness for C6 at a concrete never-started state. -/
theorem shutdown_event_never_raises_witness :
    ∃ invoked : Bool,
      shutdown_event { mcp_client := none } CleanupOutcome.ok = .ok invoked ∧
      (({ mcp_client := none } : ServerState).mcp_client = none → invoked = false) :=
  shutdown_event_never_raises { mcp_client := none } CleanupOutcome.ok

/-- Witness for C8 at a concrete ready state. -/
theorem chat_endpoint_error_iff_failure_witness :
    ∃ resp : ChatResponse,
      chat_endpoint readyState echoClient "ping" = .ok resp ∧
      (resp.error = none ↔ resp.success = true) :=
  chat_endpoint_error_iff_failure readyState echoClient "ping"
